import Mathlib

/-!
Shallow embedding of "The Button Game" (src/box.py, src/box_spawner.py,
src/main.py) and proofs about its spawn/lifetime/scoring control loop.

Modelling conventions:
* Python floats are modelled as exact rationals (ℚ); every numeric literal in
  the source is decimal and hence exact in ℚ.
* The ambient clock `pygame.time.get_ticks()` is threaded through as an
  explicit `now : ℚ` parameter (milliseconds), one consistent snapshot per
  frame, exactly as each function reads it.
* The RNG draws of `random.random()` are threaded through as explicit
  parameters in `[0, 1]`.
* A sprite's on-screen rectangle is its rendered image's rectangle anchored at
  `topleft` (`self.rect = self.image.get_rect(topleft=self.topleft)`); the
  rendered image size depends on font rendering, so it is passed in as an
  explicit `size : ℚ × ℚ` per box.
-/

namespace TheButtonGame

/-- `SECONDS_PR_MILLISECONDS = 0.001` from src/box.py. -/
def SECONDS_PR_MILLISECONDS : ℚ := 1/1000

/-- `MILLISECONDS_PR_SECOND = 1000` from src/box_spawner.py. -/
def MILLISECONDS_PR_SECOND : ℚ := 1000

/-- A 2D point (pygame.Vector2). -/
structure Vector2 where
  x : ℚ
  y : ℚ
  deriving DecidableEq

/-- A pygame rectangle, stored as left/top corner plus width and height. -/
structure Rect where
  left : ℚ
  top : ℚ
  width : ℚ
  height : ℚ
  deriving DecidableEq

/-- `Rect.right` as pygame computes it. -/
def Rect.right (r : Rect) : ℚ := r.left + r.width

/-- `Rect.bottom` as pygame computes it. -/
def Rect.bottom (r : Rect) : ℚ := r.top + r.height

/-- `pygame.Rect.collidepoint`: a point is inside the rectangle; points on the
right or bottom edge do not count as inside. -/
def Rect.collidepoint (r : Rect) (p : Vector2) : Bool :=
  decide (r.left ≤ p.x) && decide (p.x < r.right) &&
    decide (r.top ≤ p.y) && decide (p.y < r.bottom)

/-- `pygame.math.lerp(a, b, t) = a + (b - a) * t`. -/
def lerp (a b t : ℚ) : ℚ := a + (b - a) * t

/-- `Box` from src/box.py: attributes stored by `__init__`
(`lifetime` in seconds, `topleft`, `created_at_timestamp_ms`). -/
structure Box where
  lifetime : ℚ
  topleft : Vector2
  created_at_timestamp_ms : ℚ
  deriving DecidableEq

/-- `Box.time_left_seconds`:
`self.lifetime - SECONDS_PR_MILLISECONDS * (pygame.time.get_ticks() - self.created_at_timestamp_ms)`. -/
def Box.time_left_seconds (b : Box) (now : ℚ) : ℚ :=
  b.lifetime - SECONDS_PR_MILLISECONDS * (now - b.created_at_timestamp_ms)

/-- `Box.alive`: `self.time_left_seconds > 0`. -/
def Box.alive (b : Box) (now : ℚ) : Bool :=
  decide (0 < b.time_left_seconds now)

/-- The rectangle set by `Box.update`:
`self.rect = self.image.get_rect(topleft=self.topleft)`; `size` is the
rendered image's (width, height). -/
def Box.rect (b : Box) (size : ℚ × ℚ) : Rect :=
  { left := b.topleft.x, top := b.topleft.y, width := size.1, height := size.2 }

/-- `Box.is_hit_by_mouse`: `self.rect.collidepoint(pygame.mouse.get_pos())`. -/
def Box.is_hit_by_mouse (b : Box) (size : ℚ × ℚ) (mouse : Vector2) : Bool :=
  (b.rect size).collidepoint mouse

/-- `minimum_spawn_time_seconds` from src/box_spawner.py. -/
def minimum_spawn_time_seconds (player_score : ℤ) : ℚ :=
  if player_score ≤ 5 then 1.0
  else if 20 ≤ player_score then 0.1
  else 1.2 - 0.06 * player_score

/-- `lifetime_from_score` from src/box_spawner.py. -/
def lifetime_from_score (player_score : ℤ) : ℚ :=
  if player_score ≤ 5 then 7.0
  else if 20 ≤ player_score then 1.0
  else 9.0 - 0.4 * player_score

/-- `random_cooldown_spawn_seconds` from src/box_spawner.py:
`SPAWN_WINDOW_SIZE_SECONDS*random() + minimum_spawn_time_seconds(player_score)`.
`SPAWN_WINDOW_SIZE_SECONDS` lives in settings.py (not under src/), so the
constant is passed in as `spawn_window`; `rand` is the `random()` draw. -/
def random_cooldown_spawn_seconds (spawn_window rand : ℚ) (player_score : ℤ) : ℚ :=
  spawn_window * rand + minimum_spawn_time_seconds player_score

/-- `random_position_within_bounds` from src/box_spawner.py:
`x = lerp(bounds.right, bounds.left, random())`,
`y = lerp(bounds.bottom, bounds.top, random())` with the corner arguments in
exactly that order; `rand_x`, `rand_y` are the two `random()` draws. -/
def random_position_within_bounds (bounds : Rect) (rand_x rand_y : ℚ) : Vector2 :=
  { x := lerp bounds.right bounds.left rand_x
    y := lerp bounds.bottom bounds.top rand_y }

/-- `BoxSpawner` state: `timestamp_next_spawn` (ms) and `spawn_bounds`. -/
structure BoxSpawner where
  timestamp_next_spawn : ℚ
  spawn_bounds : Rect
  deriving DecidableEq

/-- `BoxSpawner.reset_spawn_timer`:
`self.timestamp_next_spawn = pygame.time.get_ticks() + MILLISECONDS_PR_SECOND*random_cooldown_spawn_seconds(player_score)`. -/
def BoxSpawner.reset_spawn_timer (sp : BoxSpawner) (player_score : ℤ)
    (now spawn_window rand : ℚ) : BoxSpawner :=
  { sp with timestamp_next_spawn :=
      now + MILLISECONDS_PR_SECOND * random_cooldown_spawn_seconds spawn_window rand player_score }

/-- `BoxSpawner.spawn_now`: computes the lifetime from the score, draws a
position inside the bounds, resets the spawn timer and returns the new Box
(created at the current tick) together with the updated spawner state. -/
def BoxSpawner.spawn_now (sp : BoxSpawner) (player_score : ℤ)
    (now spawn_window rand rand_x rand_y : ℚ) : Box × BoxSpawner :=
  let lifetime := lifetime_from_score player_score
  let topleft := random_position_within_bounds sp.spawn_bounds rand_x rand_y
  let sp2 := sp.reset_spawn_timer player_score now spawn_window rand
  ({ lifetime := lifetime, topleft := topleft, created_at_timestamp_ms := now }, sp2)

/-- `BoxSpawner.spawn`: `if pygame.time.get_ticks() >= self.timestamp_next_spawn:
return self.spawn_now(player_score)`; otherwise the Python function falls
through and returns `None`, touching no state. -/
def BoxSpawner.spawn (sp : BoxSpawner) (player_score : ℤ)
    (now spawn_window rand rand_x rand_y : ℚ) : Option Box × BoxSpawner :=
  if sp.timestamp_next_spawn ≤ now then
    let r := sp.spawn_now player_score now spawn_window rand rand_x rand_y
    (some r.1, r.2)
  else
    (none, sp)

/-! ### Zone lemmas for the difficulty curves -/

theorem minimum_spawn_le5 {s : ℤ} (h : s ≤ 5) : minimum_spawn_time_seconds s = 1.0 := by
  simp [minimum_spawn_time_seconds, h]

theorem minimum_spawn_ge20 {s : ℤ} (h : 20 ≤ s) : minimum_spawn_time_seconds s = 0.1 := by
  have h5 : ¬ s ≤ 5 := by omega
  simp [minimum_spawn_time_seconds, h5, h]

theorem minimum_spawn_mid {s : ℤ} (h1 : 5 < s) (h2 : s < 20) :
    minimum_spawn_time_seconds s = 1.2 - 0.06 * s := by
  have h5 : ¬ s ≤ 5 := by omega
  have h20 : ¬ 20 ≤ s := by omega
  simp [minimum_spawn_time_seconds, h5, h20]

theorem lifetime_le5 {s : ℤ} (h : s ≤ 5) : lifetime_from_score s = 7.0 := by
  simp [lifetime_from_score, h]

theorem lifetime_ge20 {s : ℤ} (h : 20 ≤ s) : lifetime_from_score s = 1.0 := by
  have h5 : ¬ s ≤ 5 := by omega
  simp [lifetime_from_score, h5, h]

theorem lifetime_mid {s : ℤ} (h1 : 5 < s) (h2 : s < 20) :
    lifetime_from_score s = 9.0 - 0.4 * s := by
  have h5 : ¬ s ≤ 5 := by omega
  have h20 : ¬ 20 ≤ s := by omega
  simp [lifetime_from_score, h5, h20]

theorem minimum_spawn_bounds (s : ℤ) :
    6/100 ≤ minimum_spawn_time_seconds s ∧ minimum_spawn_time_seconds s ≤ 1 := by
  rcases (by omega : s ≤ 5 ∨ (5 < s ∧ s < 20) ∨ 20 ≤ s) with h | ⟨h1, h2⟩ | h
  · rw [minimum_spawn_le5 h]; norm_num
  · rw [minimum_spawn_mid h1 h2]
    have l1 : (6:ℚ) ≤ s := by exact_mod_cast (by omega : (6:ℤ) ≤ s)
    have l2 : (s:ℚ) ≤ 19 := by exact_mod_cast (by omega : s ≤ (19:ℤ))
    constructor <;> [linarith; linarith]
  · rw [minimum_spawn_ge20 h]; norm_num

theorem lifetime_bounds (s : ℤ) :
    1 ≤ lifetime_from_score s ∧ lifetime_from_score s ≤ 7 := by
  rcases (by omega : s ≤ 5 ∨ (5 < s ∧ s < 20) ∨ 20 ≤ s) with h | ⟨h1, h2⟩ | h
  · rw [lifetime_le5 h]; norm_num
  · rw [lifetime_mid h1 h2]
    have l1 : (6:ℚ) ≤ s := by exact_mod_cast (by omega : (6:ℤ) ≤ s)
    have l2 : (s:ℚ) ≤ 19 := by exact_mod_cast (by omega : s ≤ (19:ℤ))
    constructor <;> [linarith; linarith]
  · rw [lifetime_ge20 h]; norm_num

/-! ### Game controller (src/main.py) -/

/-- The session state owned by `ButtonGame`: `player_score`, `player_lives`
and the sprite group `boxes` (modelled as a list; the group iterates over its
sprites). -/
structure GameState where
  player_score : ℤ
  player_lives : ℤ
  boxes : List Box
  deriving DecidableEq

/-- The `for box in self.boxes` loop body of `ButtonGame.update_sprites`,
run over the whole group: for each box, `if not box.alive:` decrement lives
and kill it, then (independently, there is no `else`)
`if box.is_hit_by_mouse():` increment score and kill it. A killed box is
removed from the group; `kill` on an already killed box is a no-op. The loop
returns the final lives, the final score and the surviving boxes, in order. -/
def update_sprites_loop (now : ℚ) (sz : Box → ℚ × ℚ) (mouse : Vector2) :
    List Box → ℤ → ℤ → ℤ × ℤ × List Box
  | [], lives, score => (lives, score, [])
  | b :: rest, lives, score =>
    let lives2 := if !(b.alive now) then lives - 1 else lives
    let score2 := if b.is_hit_by_mouse (sz b) mouse then score + 1 else score
    let killed := !(b.alive now) || b.is_hit_by_mouse (sz b) mouse
    let r := update_sprites_loop now sz mouse rest lives2 score2
    (r.1, r.2.1, if killed then r.2.2 else b :: r.2.2)

/-- `ButtonGame.update_sprites`: runs the per-box loop over the group, then
`if self.player_lives <= 0: raise GameOver`. The returned Bool is `true` iff
`GameOver` is raised (the mutated state is kept either way, as the Python
object keeps its mutated attributes when the exception propagates). -/
def update_sprites (s : GameState) (now : ℚ) (sz : Box → ℚ × ℚ) (mouse : Vector2) :
    GameState × Bool :=
  let r := update_sprites_loop now sz mouse s.boxes s.player_lives s.player_score
  ({ player_score := r.2.1, player_lives := r.1, boxes := r.2.2 }, decide (r.1 ≤ 0))

/-- Closed form of the update loop: lives drop by the number of expired boxes,
score rises by the number of boxes the pointer is inside, and exactly the
boxes that are alive and not under the pointer survive. -/
theorem update_sprites_loop_spec (now : ℚ) (sz : Box → ℚ × ℚ) (mouse : Vector2)
    (boxes : List Box) : ∀ lives score : ℤ,
    update_sprites_loop now sz mouse boxes lives score =
      (lives - (boxes.countP (fun b => !(b.alive now)) : ℤ),
       score + (boxes.countP (fun b => b.is_hit_by_mouse (sz b) mouse) : ℤ),
       boxes.filter (fun b => b.alive now && !(b.is_hit_by_mouse (sz b) mouse))) := by
  induction boxes with
  | nil => intro lives score; simp [update_sprites_loop]
  | cons b rest ih =>
    intro lives score
    by_cases ha : b.alive now = true
    · by_cases hh : b.is_hit_by_mouse (sz b) mouse = true
      · simp [update_sprites_loop, ih, ha, hh, List.countP_cons, List.filter_cons]
        ring
      · simp [update_sprites_loop, ih, ha, hh, List.countP_cons, List.filter_cons]
    · by_cases hh : b.is_hit_by_mouse (sz b) mouse = true
      · simp [update_sprites_loop, ih, ha, hh, List.countP_cons, List.filter_cons]
        exact ⟨by ring, by ring⟩
      · simp [update_sprites_loop, ih, ha, hh, List.countP_cons, List.filter_cons]
        ring

/-! ### Monotonicity helpers for the difficulty curves -/

theorem lifetime_antitone (s1 s2 : ℤ) (h : s1 ≤ s2) :
    lifetime_from_score s2 ≤ lifetime_from_score s1 := by
  rcases (by omega : s2 ≤ 5 ∨ (5 < s2 ∧ s2 < 20) ∨ 20 ≤ s2) with h2 | ⟨h2a, h2b⟩ | h2
  · rw [lifetime_le5 h2, lifetime_le5 (by omega)]
  · rw [lifetime_mid h2a h2b]
    rcases (by omega : s1 ≤ 5 ∨ (5 < s1 ∧ s1 < 20)) with h1 | ⟨h1a, h1b⟩
    · rw [lifetime_le5 h1]
      have c1 : (6:ℚ) ≤ s2 := by exact_mod_cast (by omega : (6:ℤ) ≤ s2)
      norm_num
      linarith
    · rw [lifetime_mid h1a h1b]
      have c : (s1:ℚ) ≤ s2 := by exact_mod_cast h
      norm_num
      linarith
  · rw [lifetime_ge20 h2]
    have := (lifetime_bounds s1).1
    linarith

theorem minimum_spawn_antitone (s1 s2 : ℤ) (h : s1 ≤ s2) (h19 : s1 ≠ 19) :
    minimum_spawn_time_seconds s2 ≤ minimum_spawn_time_seconds s1 := by
  rcases (by omega : s2 ≤ 5 ∨ (5 < s2 ∧ s2 < 20) ∨ 20 ≤ s2) with h2 | ⟨h2a, h2b⟩ | h2
  · rw [minimum_spawn_le5 h2, minimum_spawn_le5 (by omega)]
  · rw [minimum_spawn_mid h2a h2b]
    rcases (by omega : s1 ≤ 5 ∨ (5 < s1 ∧ s1 < 20)) with h1 | ⟨h1a, h1b⟩
    · rw [minimum_spawn_le5 h1]
      have c1 : (6:ℚ) ≤ s2 := by exact_mod_cast (by omega : (6:ℤ) ≤ s2)
      norm_num
      linarith
    · rw [minimum_spawn_mid h1a h1b]
      have c : (s1:ℚ) ≤ s2 := by exact_mod_cast h
      norm_num
      linarith
  · rw [minimum_spawn_ge20 h2]
    rcases (by omega : s1 ≤ 5 ∨ (5 < s1 ∧ s1 ≤ 18) ∨ 20 ≤ s1) with h1 | ⟨h1a, h1b⟩ | h1
    · rw [minimum_spawn_le5 h1]; norm_num
    · rw [minimum_spawn_mid h1a (by omega)]
      have c : (s1:ℚ) ≤ 18 := by exact_mod_cast h1b
      norm_num
      linarith
    · rw [minimum_spawn_ge20 h1]

/-! ### Claims -/

/-- C2, counterexample: the claim says both difficulty curves are monotonically
decreasing in score over the whole domain, including across the breakpoint at
score 20; but `minimum_spawn_time_seconds 19 = 1.2 - 0.06*19 = 0.06` is
strictly below `minimum_spawn_time_seconds 20 = 0.1`, so the minimum-spawn
curve increases from score 19 to score 20. -/
theorem C2_counterexample :
    (19:ℤ) < 20 ∧ minimum_spawn_time_seconds 19 < minimum_spawn_time_seconds 20 := by
  constructor
  · decide
  · rw [minimum_spawn_mid (by omega) (by omega), minimum_spawn_ge20 (by omega)]
    norm_num

/-- C2, amended: for all integer scores `s1 < s2`, `lifetime_from_score` is
monotonically decreasing, and `minimum_spawn_time_seconds` is monotonically
decreasing whenever `s1 ≠ 19`; at `s1 = 19 < 20 ≤ s2` the minimum-spawn curve
instead rises from 0.06 to 0.1 (the counterexample above). -/
theorem C2_curves_antitone_amended (s1 s2 : ℤ) (h : s1 < s2) :
    lifetime_from_score s2 ≤ lifetime_from_score s1 ∧
    (s1 ≠ 19 → minimum_spawn_time_seconds s2 ≤ minimum_spawn_time_seconds s1) :=
  ⟨lifetime_antitone s1 s2 (le_of_lt h),
   fun h19 => minimum_spawn_antitone s1 s2 (le_of_lt h) h19⟩

/-- Witness for C2's amended theorem at `s1 = 7`, `s2 = 12`. -/
theorem C2_curves_antitone_amended_witness :
    (7:ℤ) < 12 ∧ (7:ℤ) ≠ 19 ∧
    lifetime_from_score 12 ≤ lifetime_from_score 7 ∧
    minimum_spawn_time_seconds 12 ≤ minimum_spawn_time_seconds 7 :=
  ⟨by decide, by decide,
   (C2_curves_antitone_amended 7 12 (by decide)).1,
   (C2_curves_antitone_amended 7 12 (by decide)).2 (by decide)⟩

/-- C4: the exact piecewise values of both curves: for `score ≤ 5` the pair
`(1.0, 7.0)`, for `score ≥ 20` the pair `(0.1, 1.0)`, and strictly between the
breakpoints the linear formulas `1.2 - 0.06*score` and `9.0 - 0.4*score`. -/
theorem C4_difficulty_curve_values (score : ℤ) :
    (score ≤ 5 → minimum_spawn_time_seconds score = 1.0 ∧ lifetime_from_score score = 7.0) ∧
    (20 ≤ score → minimum_spawn_time_seconds score = 0.1 ∧ lifetime_from_score score = 1.0) ∧
    (5 < score → score < 20 →
      minimum_spawn_time_seconds score = 1.2 - 0.06 * score ∧
      lifetime_from_score score = 9.0 - 0.4 * score) :=
  ⟨fun h => ⟨minimum_spawn_le5 h, lifetime_le5 h⟩,
   fun h => ⟨minimum_spawn_ge20 h, lifetime_ge20 h⟩,
   fun h1 h2 => ⟨minimum_spawn_mid h1 h2, lifetime_mid h1 h2⟩⟩

/-- Witness for C4 at scores 3 (low clamp), 25 (high clamp) and 10 (linear zone). -/
theorem C4_difficulty_curve_values_witness :
    ((3:ℤ) ≤ 5 ∧ minimum_spawn_time_seconds 3 = 1.0 ∧ lifetime_from_score 3 = 7.0) ∧
    ((20:ℤ) ≤ 25 ∧ minimum_spawn_time_seconds 25 = 0.1 ∧ lifetime_from_score 25 = 1.0) ∧
    ((5:ℤ) < 10 ∧ (10:ℤ) < 20 ∧
      minimum_spawn_time_seconds 10 = 1.2 - 0.06 * ((10:ℤ):ℚ) ∧
      lifetime_from_score 10 = 9.0 - 0.4 * ((10:ℤ):ℚ)) :=
  ⟨⟨by decide, (C4_difficulty_curve_values 3).1 (by decide)⟩,
   ⟨by decide, (C4_difficulty_curve_values 25).2.1 (by decide)⟩,
   ⟨by decide, by decide, (C4_difficulty_curve_values 10).2.2 (by decide) (by decide)⟩⟩

/-- C5: `time_left_seconds now` is `lifetime - (now - created_at)` converted
from milliseconds to seconds and may be negative; in particular the box with
lifetime 7.0 created at 1000 has time 6.5 at now = 1500 and time -0.1 (already
negative) at now = 8100. -/
theorem C5_time_left_formula (b : Box) (now : ℚ) :
    b.time_left_seconds now = b.lifetime - (now - b.created_at_timestamp_ms) / 1000 ∧
    (Box.mk 7.0 ⟨0, 0⟩ 1000).time_left_seconds 1500 = 6.5 ∧
    (Box.mk 7.0 ⟨0, 0⟩ 1000).time_left_seconds 8100 = -0.1 ∧
    (Box.mk 7.0 ⟨0, 0⟩ 1000).time_left_seconds 8100 < 0 := by
  refine ⟨?_,
    by norm_num [Box.time_left_seconds, SECONDS_PR_MILLISECONDS],
    by norm_num [Box.time_left_seconds, SECONDS_PR_MILLISECONDS],
    by norm_num [Box.time_left_seconds, SECONDS_PR_MILLISECONDS]⟩
  unfold Box.time_left_seconds SECONDS_PR_MILLISECONDS
  ring

/-- C6: for a fixed box, `time_left_seconds` is strictly decreasing in `now`;
`alive` is true exactly for `now` strictly below the millisecond timestamp
`created_at + 1000 * lifetime` (the claim's `createdAt + lifetime` after
converting the lifetime from seconds to milliseconds), so it flips from true
to false exactly once, at that instant, and once false never turns true. -/
theorem C6_strictly_decreasing_flip_once (b : Box) :
    (∀ n1 n2 : ℚ, n1 < n2 → b.time_left_seconds n2 < b.time_left_seconds n1) ∧
    (∀ now : ℚ, b.alive now = true ↔ now < b.created_at_timestamp_ms + 1000 * b.lifetime) ∧
    (∀ n1 n2 : ℚ, n1 ≤ n2 → b.alive n2 = true → b.alive n1 = true) := by
  have key : ∀ now : ℚ,
      b.alive now = true ↔ now < b.created_at_timestamp_ms + 1000 * b.lifetime := by
    intro now
    unfold Box.alive Box.time_left_seconds SECONDS_PR_MILLISECONDS
    rw [decide_eq_true_eq]
    constructor <;> intro hx <;> linarith
  refine ⟨?_, key, ?_⟩
  · intro n1 n2 hlt
    unfold Box.time_left_seconds SECONDS_PR_MILLISECONDS
    linarith
  · intro n1 n2 hle h2
    rw [key] at h2 ⊢
    linarith

/-- Witness for C6 at the box of Scenario B. -/
theorem C6_strictly_decreasing_flip_once_witness :
    ((1500:ℚ) < 1600 ∧
      (Box.mk 7.0 ⟨0, 0⟩ 1000).time_left_seconds 1600 <
        (Box.mk 7.0 ⟨0, 0⟩ 1000).time_left_seconds 1500) ∧
    ((Box.mk 7.0 ⟨0, 0⟩ 1000).alive 1500 = true ↔
      (1500:ℚ) < 1000 + 1000 * 7.0) :=
  ⟨⟨by norm_num,
    (C6_strictly_decreasing_flip_once (Box.mk 7.0 ⟨0, 0⟩ 1000)).1 1500 1600 (by norm_num)⟩,
   (C6_strictly_decreasing_flip_once (Box.mk 7.0 ⟨0, 0⟩ 1000)).2.1 1500⟩

/-- C7: `BoxSpawner.spawn` returns exactly `spawn_now`'s box (with `spawn_now`'s
state update) when the current tick has reached `timestamp_next_spawn`, and
otherwise returns nothing and leaves the entire spawner state unchanged. -/
theorem C7_spawn_timer_gate (sp : BoxSpawner) (player_score : ℤ)
    (now spawn_window rand rand_x rand_y : ℚ) :
    (sp.timestamp_next_spawn ≤ now →
      sp.spawn player_score now spawn_window rand rand_x rand_y =
        (some (sp.spawn_now player_score now spawn_window rand rand_x rand_y).1,
         (sp.spawn_now player_score now spawn_window rand rand_x rand_y).2)) ∧
    (now < sp.timestamp_next_spawn →
      sp.spawn player_score now spawn_window rand rand_x rand_y = (none, sp)) := by
  constructor
  · intro h
    simp [BoxSpawner.spawn, h]
  · intro h
    simp [BoxSpawner.spawn, not_le.mpr h]

/-- Witness for C7: a spawner with `timestamp_next_spawn = 1000` spawns at
`now = 2000` and does nothing at `now = 500`. -/
theorem C7_spawn_timer_gate_witness :
    ((1000:ℚ) ≤ 2000 ∧
      (BoxSpawner.mk 1000 (Rect.mk 0 0 100 50)).spawn 0 2000 2 (1/2) (1/3) (1/4) =
        (some ((BoxSpawner.mk 1000 (Rect.mk 0 0 100 50)).spawn_now 0 2000 2 (1/2) (1/3) (1/4)).1,
         ((BoxSpawner.mk 1000 (Rect.mk 0 0 100 50)).spawn_now 0 2000 2 (1/2) (1/3) (1/4)).2)) ∧
    ((500:ℚ) < 1000 ∧
      (BoxSpawner.mk 1000 (Rect.mk 0 0 100 50)).spawn 0 500 2 (1/2) (1/3) (1/4) =
        (none, BoxSpawner.mk 1000 (Rect.mk 0 0 100 50))) :=
  ⟨⟨by norm_num,
    (C7_spawn_timer_gate (BoxSpawner.mk 1000 (Rect.mk 0 0 100 50)) 0 2000 2 (1/2) (1/3) (1/4)).1
      (by norm_num)⟩,
   ⟨by norm_num,
    (C7_spawn_timer_gate (BoxSpawner.mk 1000 (Rect.mk 0 0 100 50)) 0 500 2 (1/2) (1/3) (1/4)).2
      (by norm_num)⟩⟩

/-- C9: for RNG draws in `[0, 1]` and a rectangle with `left ≤ right` and
`top ≤ bottom`, `random_position_within_bounds` returns a point inside the
rectangle, with `x` interpolated between `right` and `left` and `y` between
`bottom` and `top`, in exactly that argument order. -/
theorem C9_random_position_stays_in_bounds (bounds : Rect) (rand_x rand_y : ℚ)
    (hlr : bounds.left ≤ bounds.right) (htb : bounds.top ≤ bounds.bottom)
    (hx0 : 0 ≤ rand_x) (hx1 : rand_x ≤ 1) (hy0 : 0 ≤ rand_y) (hy1 : rand_y ≤ 1) :
    (random_position_within_bounds bounds rand_x rand_y).x =
      lerp bounds.right bounds.left rand_x ∧
    (random_position_within_bounds bounds rand_x rand_y).y =
      lerp bounds.bottom bounds.top rand_y ∧
    bounds.left ≤ (random_position_within_bounds bounds rand_x rand_y).x ∧
    (random_position_within_bounds bounds rand_x rand_y).x ≤ bounds.right ∧
    bounds.top ≤ (random_position_within_bounds bounds rand_x rand_y).y ∧
    (random_position_within_bounds bounds rand_x rand_y).y ≤ bounds.bottom := by
  refine ⟨rfl, rfl, ?_, ?_, ?_, ?_⟩ <;>
    simp only [random_position_within_bounds, lerp]
  · nlinarith [mul_nonneg (sub_nonneg.mpr hlr) (sub_nonneg.mpr hx1)]
  · nlinarith [mul_nonneg (sub_nonneg.mpr hlr) hx0]
  · nlinarith [mul_nonneg (sub_nonneg.mpr htb) (sub_nonneg.mpr hy1)]
  · nlinarith [mul_nonneg (sub_nonneg.mpr htb) hy0]

/-- Witness for C9 on the rectangle with corners (0, 10) and (100, 60) and
draws 1/2 and 1/4. -/
theorem C9_random_position_stays_in_bounds_witness :
    (Rect.mk 0 10 100 50).left ≤ (Rect.mk 0 10 100 50).right ∧
    (Rect.mk 0 10 100 50).top ≤ (Rect.mk 0 10 100 50).bottom ∧
    ((random_position_within_bounds (Rect.mk 0 10 100 50) (1/2) (1/4)).x =
        lerp (Rect.mk 0 10 100 50).right (Rect.mk 0 10 100 50).left (1/2) ∧
      (random_position_within_bounds (Rect.mk 0 10 100 50) (1/2) (1/4)).y =
        lerp (Rect.mk 0 10 100 50).bottom (Rect.mk 0 10 100 50).top (1/4) ∧
      (Rect.mk 0 10 100 50).left ≤
        (random_position_within_bounds (Rect.mk 0 10 100 50) (1/2) (1/4)).x ∧
      (random_position_within_bounds (Rect.mk 0 10 100 50) (1/2) (1/4)).x ≤
        (Rect.mk 0 10 100 50).right ∧
      (Rect.mk 0 10 100 50).top ≤
        (random_position_within_bounds (Rect.mk 0 10 100 50) (1/2) (1/4)).y ∧
      (random_position_within_bounds (Rect.mk 0 10 100 50) (1/2) (1/4)).y ≤
        (Rect.mk 0 10 100 50).bottom) :=
  ⟨by norm_num [Rect.right],
   by norm_num [Rect.bottom],
   C9_random_position_stays_in_bounds (Rect.mk 0 10 100 50) (1/2) (1/4)
     (by norm_num [Rect.right]) (by norm_num [Rect.bottom])
     (by norm_num) (by norm_num) (by norm_num) (by norm_num)⟩

/-- C10: for every integer score, `lifetime_from_score` lands in [1, 7] and
`minimum_spawn_time_seconds` in [0.06, 1]; hence every box built by
`spawn_now` has a strictly positive lifetime, and (for a nonnegative spawn
window constant and RNG draw) every spawn-timer reset uses a strictly
positive cooldown. -/
theorem C10_curve_ranges_and_positivity (score : ℤ) (spawn_window rand : ℚ)
    (hw : 0 ≤ spawn_window) (hr : 0 ≤ rand) :
    (1 ≤ lifetime_from_score score ∧ lifetime_from_score score ≤ 7) ∧
    (6/100 ≤ minimum_spawn_time_seconds score ∧ minimum_spawn_time_seconds score ≤ 1) ∧
    (∀ (sp : BoxSpawner) (now rand_x rand_y : ℚ),
      0 < ((sp.spawn_now score now spawn_window rand rand_x rand_y).1).lifetime) ∧
    0 < random_cooldown_spawn_seconds spawn_window rand score := by
  have hl := lifetime_bounds score
  have hm := minimum_spawn_bounds score
  refine ⟨hl, hm, ?_, ?_⟩
  · intro sp now rand_x rand_y
    show 0 < lifetime_from_score score
    linarith [hl.1]
  · unfold random_cooldown_spawn_seconds
    have hwr := mul_nonneg hw hr
    linarith [hm.1]

/-- Witness for C10 at score 7, spawn window 2, draw 1/2 and a concrete
spawner. -/
theorem C10_curve_ranges_and_positivity_witness :
    (0:ℚ) ≤ 2 ∧ (0:ℚ) ≤ 1/2 ∧
    (1 ≤ lifetime_from_score 7 ∧ lifetime_from_score 7 ≤ 7) ∧
    (6/100 ≤ minimum_spawn_time_seconds 7 ∧ minimum_spawn_time_seconds 7 ≤ 1) ∧
    0 < (((BoxSpawner.mk 0 (Rect.mk 0 0 100 50)).spawn_now 7 1000 2 (1/2) (1/3) (1/4)).1).lifetime ∧
    0 < random_cooldown_spawn_seconds 2 (1/2) 7 :=
  ⟨by norm_num, by norm_num,
   (C10_curve_ranges_and_positivity 7 2 (1/2) (by norm_num) (by norm_num)).1,
   (C10_curve_ranges_and_positivity 7 2 (1/2) (by norm_num) (by norm_num)).2.1,
   (C10_curve_ranges_and_positivity 7 2 (1/2) (by norm_num) (by norm_num)).2.2.1
     (BoxSpawner.mk 0 (Rect.mk 0 0 100 50)) 1000 (1/3) (1/4),
   (C10_curve_ranges_and_positivity 7 2 (1/2) (by norm_num) (by norm_num)).2.2.2⟩

/-- C1, counterexample: a box that is both expired and under the pointer in
the same frame. The claim says the update resolves it expired-first with the
score unchanged, but the two `if` branches of the loop body are independent
(there is no `else`), so the score rises from 0 to 1 while lives also drop
from 3 to 2 and the box is removed. -/
theorem C1_counterexample :
    (Box.mk 1.0 ⟨0, 0⟩ 0).alive 5000 = false ∧
    (Box.mk 1.0 ⟨0, 0⟩ 0).is_hit_by_mouse (10, 10) ⟨5, 5⟩ = true ∧
    (update_sprites ⟨0, 3, [Box.mk 1.0 ⟨0, 0⟩ 0]⟩ 5000 (fun _ => (10, 10)) ⟨5, 5⟩).1.player_lives = 2 ∧
    (update_sprites ⟨0, 3, [Box.mk 1.0 ⟨0, 0⟩ 0]⟩ 5000 (fun _ => (10, 10)) ⟨5, 5⟩).1.player_score = 1 ∧
    (update_sprites ⟨0, 3, [Box.mk 1.0 ⟨0, 0⟩ 0]⟩ 5000 (fun _ => (10, 10)) ⟨5, 5⟩).1.boxes = [] := by
  norm_num [update_sprites, update_sprites_loop, Box.alive, Box.is_hit_by_mouse, Box.rect,
    Rect.collidepoint, Rect.right, Rect.bottom, Box.time_left_seconds, SECONDS_PR_MILLISECONDS]

/-- C1, amended: a target that is both expired and hit by the pointer in the
same frame is resolved as BOTH, in source order: the expiry branch decrements
lives and removes it, and — because the hit check is a second independent `if`
with no `else` — the hit branch then also increments the score. -/
theorem C1_expired_and_hit_resolved_as_both (s : GameState) (now : ℚ)
    (sz : Box → ℚ × ℚ) (mouse : Vector2) (b : Box) (hmem : b ∈ s.boxes)
    (hexp : b.alive now = false) (hhit : b.is_hit_by_mouse (sz b) mouse = true) :
    b ∉ (update_sprites s now sz mouse).1.boxes ∧
    (update_sprites s now sz mouse).1.player_lives ≤ s.player_lives - 1 ∧
    s.player_score + 1 ≤ (update_sprites s now sz mouse).1.player_score := by
  have hspec := update_sprites_loop_spec now sz mouse s.boxes s.player_lives s.player_score
  refine ⟨?_, ?_, ?_⟩
  · simp only [update_sprites, hspec]
    intro hmem2
    have hp := List.of_mem_filter hmem2
    simp [hexp] at hp
  · have hpos : 0 < s.boxes.countP (fun b => !(b.alive now)) :=
      List.countP_pos_iff.mpr ⟨b, hmem, by simp [hexp]⟩
    simp only [update_sprites, hspec]
    omega
  · have hpos : 0 < s.boxes.countP (fun b => b.is_hit_by_mouse (sz b) mouse) :=
      List.countP_pos_iff.mpr ⟨b, hmem, hhit⟩
    simp only [update_sprites, hspec]
    omega

/-- Witness for C1's amended theorem at the counterexample frame. -/
theorem C1_expired_and_hit_resolved_as_both_witness :
    Box.mk 1.0 ⟨0, 0⟩ 0 ∈ ([Box.mk 1.0 ⟨0, 0⟩ 0] : List Box) ∧
    (Box.mk 1.0 ⟨0, 0⟩ 0).alive 5000 = false ∧
    (Box.mk 1.0 ⟨0, 0⟩ 0).is_hit_by_mouse (10, 10) ⟨5, 5⟩ = true ∧
    (Box.mk 1.0 ⟨0, 0⟩ 0 ∉
        (update_sprites ⟨0, 3, [Box.mk 1.0 ⟨0, 0⟩ 0]⟩ 5000 (fun _ => (10, 10)) ⟨5, 5⟩).1.boxes ∧
      (update_sprites ⟨0, 3, [Box.mk 1.0 ⟨0, 0⟩ 0]⟩ 5000 (fun _ => (10, 10)) ⟨5, 5⟩).1.player_lives ≤
        3 - 1 ∧
      (0:ℤ) + 1 ≤
        (update_sprites ⟨0, 3, [Box.mk 1.0 ⟨0, 0⟩ 0]⟩ 5000 (fun _ => (10, 10)) ⟨5, 5⟩).1.player_score) :=
  ⟨List.mem_singleton_self _,
   by norm_num [Box.alive, Box.time_left_seconds, SECONDS_PR_MILLISECONDS],
   by norm_num [Box.is_hit_by_mouse, Box.rect, Rect.collidepoint, Rect.right, Rect.bottom],
   C1_expired_and_hit_resolved_as_both ⟨0, 3, [Box.mk 1.0 ⟨0, 0⟩ 0]⟩ 5000 (fun _ => (10, 10))
     ⟨5, 5⟩ (Box.mk 1.0 ⟨0, 0⟩ 0) (List.mem_singleton_self _)
     (by norm_num [Box.alive, Box.time_left_seconds, SECONDS_PR_MILLISECONDS])
     (by norm_num [Box.is_hit_by_mouse, Box.rect, Rect.collidepoint, Rect.right, Rect.bottom])⟩

/-- C3: the code has no click gate. `update_sprites` increments the score
whenever `is_hit_by_mouse` — a pure pointer-position test against the box's
rectangle — is true; no mouse-button event is read anywhere (the event queue
is only scanned for QUIT in `game_is_closed`). Evaluating the frame update at
a state where the pointer merely hovers over a live box: the score rises from
0 to 1 and the box is removed, with no click anywhere in the model,
contradicting the claim (and `update_sprites`'s own docstring, which says the
player must press the box). -/
theorem C3_hover_alone_increments_score :
    (Box.mk 7.0 ⟨0, 0⟩ 1000).alive 1500 = true ∧
    (Box.mk 7.0 ⟨0, 0⟩ 1000).is_hit_by_mouse (10, 10) ⟨5, 5⟩ = true ∧
    (update_sprites ⟨0, 3, [Box.mk 7.0 ⟨0, 0⟩ 1000]⟩ 1500 (fun _ => (10, 10)) ⟨5, 5⟩).1.player_score = 1 ∧
    (update_sprites ⟨0, 3, [Box.mk 7.0 ⟨0, 0⟩ 1000]⟩ 1500 (fun _ => (10, 10)) ⟨5, 5⟩).1.player_lives = 3 ∧
    (update_sprites ⟨0, 3, [Box.mk 7.0 ⟨0, 0⟩ 1000]⟩ 1500 (fun _ => (10, 10)) ⟨5, 5⟩).1.boxes = [] := by
  norm_num [update_sprites, update_sprites_loop, Box.alive, Box.is_hit_by_mouse, Box.rect,
    Rect.collidepoint, Rect.right, Rect.bottom, Box.time_left_seconds, SECONDS_PR_MILLISECONDS]

/-- C8: across one frame update of the session state, the score never
decreases; `GameOver` is raised exactly when the post-update lives are ≤ 0;
and whenever the session is still running after the update (no `GameOver`)
the lives are ≥ 0. -/
theorem C8_session_invariants (s : GameState) (now : ℚ) (sz : Box → ℚ × ℚ)
    (mouse : Vector2) :
    ((update_sprites s now sz mouse).2 = false →
      0 ≤ (update_sprites s now sz mouse).1.player_lives) ∧
    ((update_sprites s now sz mouse).2 = true ↔
      (update_sprites s now sz mouse).1.player_lives ≤ 0) ∧
    s.player_score ≤ (update_sprites s now sz mouse).1.player_score := by
  have hspec := update_sprites_loop_spec now sz mouse s.boxes s.player_lives s.player_score
  refine ⟨?_, ?_, ?_⟩
  · simp only [update_sprites, hspec, decide_eq_false_iff_not, not_le]
    omega
  · simp only [update_sprites, hspec, decide_eq_true_eq]
  · simp only [update_sprites, hspec]
    omega

/-- Witness for C8 on a one-box frame in which nothing expires and nothing is
hit. -/
theorem C8_session_invariants_witness :
    (update_sprites ⟨0, 3, [Box.mk 7.0 ⟨0, 0⟩ 1000]⟩ 1500 (fun _ => (10, 10)) ⟨200, 200⟩).2 = false ∧
    0 ≤ (update_sprites ⟨0, 3, [Box.mk 7.0 ⟨0, 0⟩ 1000]⟩ 1500 (fun _ => (10, 10)) ⟨200, 200⟩).1.player_lives ∧
    ((update_sprites ⟨0, 3, [Box.mk 7.0 ⟨0, 0⟩ 1000]⟩ 1500 (fun _ => (10, 10)) ⟨200, 200⟩).2 = true ↔
      (update_sprites ⟨0, 3, [Box.mk 7.0 ⟨0, 0⟩ 1000]⟩ 1500 (fun _ => (10, 10)) ⟨200, 200⟩).1.player_lives ≤ 0) ∧
    (0:ℤ) ≤ (update_sprites ⟨0, 3, [Box.mk 7.0 ⟨0, 0⟩ 1000]⟩ 1500 (fun _ => (10, 10)) ⟨200, 200⟩).1.player_score :=
  ⟨by norm_num [update_sprites, update_sprites_loop, Box.alive, Box.is_hit_by_mouse, Box.rect,
      Rect.collidepoint, Rect.right, Rect.bottom, Box.time_left_seconds, SECONDS_PR_MILLISECONDS],
   (C8_session_invariants ⟨0, 3, [Box.mk 7.0 ⟨0, 0⟩ 1000]⟩ 1500 (fun _ => (10, 10)) ⟨200, 200⟩).1
     (by norm_num [update_sprites, update_sprites_loop, Box.alive, Box.is_hit_by_mouse, Box.rect,
        Rect.collidepoint, Rect.right, Rect.bottom, Box.time_left_seconds, SECONDS_PR_MILLISECONDS]),
   (C8_session_invariants ⟨0, 3, [Box.mk 7.0 ⟨0, 0⟩ 1000]⟩ 1500 (fun _ => (10, 10)) ⟨200, 200⟩).2.1,
   (C8_session_invariants ⟨0, 3, [Box.mk 7.0 ⟨0, 0⟩ 1000]⟩ 1500 (fun _ => (10, 10)) ⟨200, 200⟩).2.2⟩

end TheButtonGame
